import Mathlib

/-!
Shallow embedding of `kaggle_ollama_setup.py` (Circle for Life, Kaggle
Ollama setup script), covering the parts the verified claims are about:

* the environment map built for the supervised process (lines 149-151),
* the initial `subprocess.Popen` spawning `ollama serve` (lines 154-159),
* the startup readiness-wait loop and its failure exit (lines 163-194),
* the Step 6 keep-alive supervision loop (lines 295-317).

Each cycle of the keep-alive loop is driven by an explicit record of the
external outcomes the Python code can observe during that cycle (probe
result, `ngrok.get_tunnels()` result, `poll()` result, `Popen` result),
and produces the next loop state together with a trace of the cycle's
observable effects (printed reports, `Popen` calls, processes spawned,
pipe reads performed, sleeps).  An exception that escapes the loop body
(one raised inside the `except` handler, where nothing catches it) is
modelled by the `crashed` flag: once set, no further cycles run.
-/

namespace CircleForLife

/-- An environment map, as Python's `os.environ` dict: a key-value list. -/
abbrev EnvMap := List (String × String)

/-- Python dict assignment `d[k] = v`: replace any existing binding of `k`. -/
def setVar (e : EnvMap) (k v : String) : EnvMap :=
  (k, v) :: e.filter (fun p => p.1 ≠ k)

/-- Python dict lookup `d[k]`. -/
def getVar (e : EnvMap) (k : String) : Option String :=
  (e.find? (fun p => p.1 = k)).map (fun p => p.2)

/-- Lines 149-151: `ollama_env = dict of os.environ` then
`ollama_env["OLLAMA_HOST"] = "0.0.0.0:11434"` and
`ollama_env["OLLAMA_ORIGINS"] = "*"`. -/
def ollamaEnv (osEnviron : EnvMap) : EnvMap :=
  setVar (setVar osEnviron "OLLAMA_HOST" "0.0.0.0:11434") "OLLAMA_ORIGINS" "*"

/-- A spawned subprocess handle (`subprocess.Popen` result): the argument
vector, the environment it was spawned with, whether stdout/stderr were
attached to pipes, and a generation counter distinguishing successive
spawns of the supervised server. -/
structure Proc where
  args : List String
  env : EnvMap
  stdoutPipe : Bool
  stderrPipe : Bool
  gen : Nat
  deriving Repr, DecidableEq

/-- Lines 154-159: the initial
`subprocess.Popen(["ollama", "serve"], stdout=PIPE, stderr=PIPE, env=ollama_env)`. -/
def initialProc (osEnviron : EnvMap) : Proc :=
  { args := ["ollama", "serve"]
    env := ollamaEnv osEnviron
    stdoutPipe := true
    stderrPipe := true
    gen := 0 }

/-- Outcome of a `urllib.request.urlopen` call as the `try` block sees it:
either a response object carrying an HTTP status, or a raised exception
(network error, timeout, or an `HTTPError` for an error status) carrying
its diagnostic message. -/
inductive UrlopenResult where
  | response (status : Nat)
  | raises (msg : String)
  deriving Repr, DecidableEq

/-- The spec's liveness classification vocabulary. -/
inductive Liveness where
  | HEALTHY
  | UNHEALTHY
  deriving Repr, DecidableEq

/-- Line 299's classification of a probe outcome: the code treats the
probe as healthy exactly when `urlopen` returned and `resp.status == 200`;
every raised exception and every other returned status falls into the
warning / error reporting paths. -/
def classifyProbe : UrlopenResult → Liveness
  | .response status => if status == 200 then .HEALTHY else .UNHEALTHY
  | .raises _ => .UNHEALTHY

/-- One line printed by a keep-alive cycle (timestamps elided). -/
inductive Report where
  | serverOk (url : String)      -- line 302: "✓ Server OK | URL: ..."
  | serverStatus (status : Nat)  -- line 304: "⚠ Server returned {status}"
  | errorMsg (msg : String)      -- line 306: "✗ ERROR: {e}"
  | restartMsg                   -- line 309: "Ollama process died! Restarting..."
  deriving Repr, DecidableEq

/-- The external outcomes one keep-alive cycle can observe:
the probe's `urlopen` outcome (line 298), the `ngrok.get_tunnels()` outcome
(line 300, consulted only after a 200 response), whether
`ollama_process.poll()` returned non-`None` (line 308, consulted only in the
`except` handler), and whether the restart `Popen` succeeds (line 310,
consulted only on the restart path). -/
structure CycleEnv where
  probe : UrlopenResult
  tunnelsResult : Except String (List String)
  procExited : Bool
  spawnResult : Except String Unit
  deriving Repr

/-- The supervisor's state between cycles: the single `ollama_process`
variable, plus whether an uncaught exception has escaped the loop body
(terminating the `while True` loop, which has no enclosing handler). -/
structure LoopState where
  proc : Proc
  crashed : Bool
  deriving Repr, DecidableEq

/-- Observable effects of one keep-alive cycle: printed reports, number of
`subprocess.Popen` calls made, processes actually created, number of reads
performed on the supervised process's stdout/stderr pipes, and the
`time.sleep` durations executed, in order. -/
structure CycleTrace where
  reports : List Report
  popenCalls : Nat
  spawned : List Proc
  pipeReads : Nat
  sleeps : List Nat
  deriving Repr, DecidableEq

/-- Line 317: `time.sleep(300)  # Check every 5 minutes`. -/
def probeInterval : Nat := 300

/-- Line 316: `time.sleep(10)` after a restart. -/
def settleInterval : Nat := 10

/-- Lines 305-316, the `except` handler: print the error, and if
`ollama_process.poll() is not None` print the restart notice and spawn a
replacement with `subprocess.Popen(["ollama","serve"], stdout=PIPE,
stderr=PIPE, env=ollama_env)` followed by `time.sleep(10)`.  A `Popen`
failure is raised inside this handler, where nothing catches it, so it
escapes the loop: the cycle ends with `crashed` set and no further sleeps.
Every non-crashing path falls through to `time.sleep(300)` (line 317). -/
def exceptHandler (osEnviron : EnvMap) (s : LoopState) (e : CycleEnv)
    (msg : String) : LoopState × CycleTrace :=
  if e.procExited then
    match e.spawnResult with
    | .ok _ =>
      let p : Proc :=
        { args := ["ollama", "serve"]
          env := ollamaEnv osEnviron
          stdoutPipe := true
          stderrPipe := true
          gen := s.proc.gen + 1 }
      ({ s with proc := p },
       { reports := [.errorMsg msg, .restartMsg]
         popenCalls := 1
         spawned := [p]
         pipeReads := 0
         sleeps := [settleInterval, probeInterval] })
    | .error _ =>
      ({ s with crashed := true },
       { reports := [.errorMsg msg, .restartMsg]
         popenCalls := 1
         spawned := []
         pipeReads := 0
         sleeps := [] })
  else
    (s,
     { reports := [.errorMsg msg]
       popenCalls := 0
       spawned := []
       pipeReads := 0
       sleeps := [probeInterval] })

/-- Lines 295-317, the body of the Step 6 `while True` loop, for one cycle.
Inside the `try`: `urlopen` the version endpoint; on `resp.status == 200`
call `ngrok.get_tunnels()` and print the OK line (first tunnel's URL, or
"DISCONNECTED" when the list is empty); on any other returned status print
the warning line.  Any exception raised in the `try` — by `urlopen` or by
`get_tunnels` — lands in the `except` handler. -/
def cycle (osEnviron : EnvMap) (s : LoopState) (e : CycleEnv) :
    LoopState × CycleTrace :=
  match e.probe with
  | .response status =>
    if status == 200 then
      match e.tunnelsResult with
      | .ok tunnels =>
        let url := match tunnels with
          | [] => "DISCONNECTED"
          | u :: _ => u
        (s,
         { reports := [.serverOk url]
           popenCalls := 0
           spawned := []
           pipeReads := 0
           sleeps := [probeInterval] })
      | .error msg => exceptHandler osEnviron s e msg
    else
      (s,
       { reports := [.serverStatus status]
         popenCalls := 0
         spawned := []
         pipeReads := 0
         sleeps := [probeInterval] })
  | .raises msg => exceptHandler osEnviron s e msg

/-- Run the keep-alive loop through a list of cycle observations.  Once an
uncaught exception has escaped the loop body (`crashed`), the `while True`
loop is gone and no further cycles execute. -/
def run (osEnviron : EnvMap) (s : LoopState) :
    List CycleEnv → LoopState × List CycleTrace
  | [] => (s, [])
  | e :: es =>
    if s.crashed then (s, [])
    else
      let sc := cycle osEnviron s e
      let rest := run osEnviron sc.1 es
      (rest.1, sc.2 :: rest.2)

/-- The supervisor's state on entering the keep-alive loop: the single
handle from the line 154 `Popen`, loop not crashed. -/
def initialState (osEnviron : EnvMap) : LoopState :=
  { proc := initialProc osEnviron, crashed := false }

/-- Total `Popen` calls across a list of cycle traces. -/
def totalPopenCalls (ts : List CycleTrace) : Nat :=
  (ts.map (fun t => t.popenCalls)).sum

/-- Total reads from the supervised process's stdout/stderr pipes across a
list of cycle traces. -/
def totalPipeReads (ts : List CycleTrace) : Nat :=
  (ts.map (fun t => t.pipeReads)).sum

/-- All processes spawned across a list of cycle traces. -/
def allSpawned (ts : List CycleTrace) : List Proc :=
  ts.flatMap (fun t => t.spawned)

/-- A cycle observation with a failing probe (exception or non-200 status)
while the supervised process is still alive. -/
def failingProbeAlive (e : CycleEnv) : Prop :=
  classifyProbe e.probe = .UNHEALTHY ∧ e.procExited = false

instance (e : CycleEnv) : Decidable (failingProbeAlive e) := by
  unfold failingProbeAlive
  infer_instance

/-! ### Startup readiness wait (lines 163-194)

Lines 164-178: `for i in range(45)`: inside a `try`, `urlopen` the version
endpoint with `timeout=2`; if `resp.status == 200` then `json.loads` the
body, print the version, set `server_ready = True` and `break`; any
exception is swallowed; each failed attempt is followed by `time.sleep(1)`.
Lines 180-194: if `server_ready` is still false, best-effort `terminate()`
and `communicate(timeout=5)` (stderr is printed only when both succeed;
their exceptions are swallowed by the bare `except`), then
`raise SystemExit("Ollama server failed to start")`. -/

/-- Outcome of one startup readiness attempt: `urlopen` raised, or returned
a response with the given status, `jsonOk` recording whether the subsequent
`json.loads(resp.read())` succeeds (it runs before `server_ready = True`;
if it raises, the attempt is swallowed like any other exception). -/
inductive StartupAttempt where
  | raises
  | response (status : Nat) (jsonOk : Bool)
  deriving Repr, DecidableEq

/-- Line 164: `range(45)` — at most 45 one-second-spaced attempts. -/
def startupAttemptLimit : Nat := 45

/-- Line 167: `timeout=2` on each startup probe. -/
def startupProbeTimeout : Nat := 2

/-- Line 176: `time.sleep(1)` between startup attempts. -/
def startupRetrySleep : Nat := 1

/-- Whether one attempt sets `server_ready = True`: the response must
arrive (no exception), carry status 200, and parse as JSON. -/
def attemptReady : StartupAttempt → Bool
  | .raises => false
  | .response status jsonOk => status == 200 && jsonOk

/-- The value of `server_ready` after the line 164 loop, given the stream
of outcomes its (at most 45) attempts would observe. -/
def serverReadyAfter (attempts : List StartupAttempt) : Bool :=
  (attempts.take startupAttemptLimit).any attemptReady

/-- What the script does right after the startup wait: either proceed to
the later steps (model pull, ngrok tunnel, and finally the Step 6
keep-alive loop), or take the failure path — best-effort terminate and
stderr report, then `raise SystemExit`. -/
inductive StartupOutcome where
  | proceed
  | failExit (terminated : Bool) (stderrReported : Bool)
  deriving Repr, DecidableEq

/-- Lines 180-194: the failure branch calls `terminate()` then
`communicate(timeout=5)` inside a `try` whose bare `except` swallows
anything; `terminateRaises` / `communicateRaises` say whether those two
calls raise.  `SystemExit` is raised afterwards regardless. -/
def startupStage (attempts : List StartupAttempt)
    (terminateRaises communicateRaises : Bool) : StartupOutcome :=
  if serverReadyAfter attempts then .proceed
  else .failExit (!terminateRaises) (!terminateRaises && !communicateRaises)

/-- Whether the startup failure path raises `SystemExit` (it is the only
exit the branch has). -/
def raisesSystemExit : StartupOutcome → Bool
  | .proceed => false
  | .failExit _ _ => true

/-- Whether execution reaches the Step 6 keep-alive loop: the startup gate
must produce `proceed`, and the intervening steps (model test, ngrok
connect) must themselves not exit — `laterStepsOk` abstracts those. -/
def entersKeepAlive (attempts : List StartupAttempt)
    (terminateRaises communicateRaises laterStepsOk : Bool) : Bool :=
  (match startupStage attempts terminateRaises communicateRaises with
   | .proceed => true
   | .failExit _ _ => false)
  && laterStepsOk

/-- The loop state holds exactly one server handle: the single
`ollama_process` variable. -/
def activeHandles (s : LoopState) : List Proc := [s.proc]

/-- A handle spawned the way both `Popen` calls in the script spawn the
server: `["ollama", "serve"]`, stdout/stderr pipes, environment
`ollama_env`. -/
def wellFormedProc (osEnviron : EnvMap) (p : Proc) : Prop :=
  p.args = ["ollama", "serve"] ∧ p.env = ollamaEnv osEnviron ∧
  p.stdoutPipe = true ∧ p.stderrPipe = true

/-- A healthy cycle: probe returns 200, `get_tunnels` succeeds. -/
def eOk : CycleEnv :=
  { probe := .response 200
    tunnelsResult := .ok ["https://abcd.ngrok.io"]
    procExited := false
    spawnResult := .ok () }

/-- A cycle whose probe hits an HTTP 500 (raised as `HTTPError` by
`urlopen`) while the server process is still alive. -/
def e500 : CycleEnv :=
  { probe := .raises "HTTP Error 500: Internal Server Error"
    tunnelsResult := .ok []
    procExited := false
    spawnResult := .ok () }

/-- A cycle whose probe returns status 204 (a 2xx success that is not
200). -/
def e204 : CycleEnv :=
  { probe := .response 204
    tunnelsResult := .ok []
    procExited := false
    spawnResult := .ok () }

/-- A cycle whose probe times out while the process is alive. -/
def eTimeout : CycleEnv :=
  { probe := .raises "timed out"
    tunnelsResult := .ok []
    procExited := false
    spawnResult := .ok () }

/-- A cycle observing a dead server: the probe is refused and `poll()`
reports an exit code; the restart `Popen` succeeds. -/
def eDead : CycleEnv :=
  { probe := .raises "Connection refused"
    tunnelsResult := .ok []
    procExited := true
    spawnResult := .ok () }

/-- A cycle observing a dead server whose restart `Popen` itself raises. -/
def eSpawnFail : CycleEnv :=
  { probe := .raises "Connection refused"
    tunnelsResult := .ok []
    procExited := true
    spawnResult := .error "FileNotFoundError" }

/-- A cycle where the probe returns 200 but `ngrok.get_tunnels()` raises,
and the server process happens to have exited. -/
def eTunnelFail : CycleEnv :=
  { probe := .response 200
    tunnelsResult := .error "ngrok session closed"
    procExited := true
    spawnResult := .ok () }

/-- The replacement handle spawned by a restart from the initial state
under an empty `os.environ`. -/
def spawnedDemo : Proc :=
  { args := ["ollama", "serve"]
    env := ollamaEnv []
    stdoutPipe := true
    stderrPipe := true
    gen := 1 }

/-! ### Helper lemmas -/

theorem exceptHandler_alive (osEnviron : EnvMap) (s : LoopState) (e : CycleEnv)
    (msg : String) (h : e.procExited = false) :
    exceptHandler osEnviron s e msg =
      (s, { reports := [.errorMsg msg], popenCalls := 0, spawned := [],
            pipeReads := 0, sleeps := [probeInterval] }) := by
  unfold exceptHandler
  rw [h]
  simp

theorem cycle_alive_preserves (osEnviron : EnvMap) (s : LoopState) (e : CycleEnv)
    (h : e.procExited = false) :
    (cycle osEnviron s e).1 = s ∧ (cycle osEnviron s e).2.popenCalls = 0 ∧
    (cycle osEnviron s e).2.spawned = [] := by
  cases hp : e.probe with
  | response status =>
    by_cases h200 : (status == 200) = true
    · cases ht : e.tunnelsResult with
      | ok tunnels => simp [cycle, hp, h200, ht]
      | error msg => simp [cycle, hp, h200, ht, exceptHandler_alive osEnviron s e msg h]
    · simp [cycle, hp, h200]
  | raises msg => simp [cycle, hp, exceptHandler_alive osEnviron s e msg h]

theorem cycle_popenCalls_le_one (osEnviron : EnvMap) (s : LoopState) (e : CycleEnv) :
    (cycle osEnviron s e).2.popenCalls ≤ 1 := by
  cases hp : e.probe with
  | response status =>
    by_cases h200 : (status == 200) = true
    · cases ht : e.tunnelsResult with
      | ok tunnels => simp [cycle, hp, h200, ht]
      | error msg =>
        simp only [cycle, hp, h200, ht, if_true]
        unfold exceptHandler
        cases he : e.procExited
        · simp
        · cases hs : e.spawnResult <;> simp [hs]
    · simp [cycle, hp, h200]
  | raises msg =>
    simp only [cycle, hp]
    unfold exceptHandler
    cases he : e.procExited
    · simp
    · cases hs : e.spawnResult <;> simp [hs]

theorem cycle_pipeReads_zero (osEnviron : EnvMap) (s : LoopState) (e : CycleEnv) :
    (cycle osEnviron s e).2.pipeReads = 0 := by
  cases hp : e.probe with
  | response status =>
    by_cases h200 : (status == 200) = true
    · cases ht : e.tunnelsResult with
      | ok tunnels => simp [cycle, hp, h200, ht]
      | error msg =>
        simp only [cycle, hp, h200, ht, if_true]
        unfold exceptHandler
        cases he : e.procExited
        · simp
        · cases hs : e.spawnResult <;> simp [hs]
    · simp [cycle, hp, h200]
  | raises msg =>
    simp only [cycle, hp]
    unfold exceptHandler
    cases he : e.procExited
    · simp
    · cases hs : e.spawnResult <;> simp [hs]

theorem run_alive_preserves (osEnviron : EnvMap) (s : LoopState) (es : List CycleEnv)
    (h : ∀ e ∈ es, e.procExited = false) :
    (run osEnviron s es).1 = s ∧ totalPopenCalls (run osEnviron s es).2 = 0 ∧
    allSpawned (run osEnviron s es).2 = [] := by
  induction es generalizing s with
  | nil => simp [run, totalPopenCalls, allSpawned]
  | cons e es ih =>
    by_cases hc : s.crashed = true
    · simp [run, hc, totalPopenCalls, allSpawned]
    · obtain ⟨h1, h2, h3⟩ :=
        cycle_alive_preserves osEnviron s e (h e (List.mem_cons_self e es))
      obtain ⟨g1, g2, g3⟩ :=
        ih ((cycle osEnviron s e).1) (fun e2 he2 => h e2 (List.mem_cons_of_mem e he2))
      rw [h1] at g1 g2 g3
      refine ⟨?_, ?_, ?_⟩
      · simpa [run, hc, h1] using g1
      · simpa [run, hc, h1, h2, totalPopenCalls] using g2
      · simpa [run, hc, h1, h3, allSpawned] using g3

theorem run_pipeReads_zero (osEnviron : EnvMap) (s : LoopState) (es : List CycleEnv) :
    totalPipeReads (run osEnviron s es).2 = 0 := by
  induction es generalizing s with
  | nil => simp [run, totalPipeReads]
  | cons e es ih =>
    by_cases hc : s.crashed = true
    · simp [run, hc, totalPipeReads]
    · have g := ih ((cycle osEnviron s e).1)
      simpa [run, hc, totalPipeReads, cycle_pipeReads_zero] using g

theorem find?_key_filter_ne (l : EnvMap) (k k2 : String) (h : k2 ≠ k) :
    (l.filter (fun p => p.1 ≠ k)).find? (fun p => p.1 = k2) =
      l.find? (fun p => p.1 = k2) := by
  induction l with
  | nil => rfl
  | cons a l ih =>
    by_cases hk : a.1 = k
    · have ha : ¬ a.1 = k2 := by rw [hk]; exact fun hh => h hh.symm
      rw [List.filter_cons_of_neg (by simpa using hk),
          List.find?_cons_of_neg _ (by simpa using ha), ih]
    · rw [List.filter_cons_of_pos (by simpa using hk)]
      by_cases ha : a.1 = k2
      · rw [List.find?_cons_of_pos _ (by simpa using ha),
            List.find?_cons_of_pos _ (by simpa using ha)]
      · rw [List.find?_cons_of_neg _ (by simpa using ha),
            List.find?_cons_of_neg _ (by simpa using ha), ih]

theorem getVar_setVar_same (e : EnvMap) (k v : String) :
    getVar (setVar e k v) k = some v := by
  unfold getVar setVar
  rw [List.find?_cons_of_pos _ (by simp)]
  rfl

theorem getVar_setVar_other (e : EnvMap) (k k2 v : String) (h : k2 ≠ k) :
    getVar (setVar e k v) k2 = getVar e k2 := by
  have hne : ¬ (((k, v) : String × String).1 = k2) := fun hh => h hh.symm
  unfold getVar setVar
  rw [List.find?_cons_of_neg _ (by simpa using hne), find?_key_filter_ne e k k2 h]

theorem getVar_ollamaEnv_host (osEnviron : EnvMap) :
    getVar (ollamaEnv osEnviron) "OLLAMA_HOST" = some "0.0.0.0:11434" := by
  unfold ollamaEnv
  rw [getVar_setVar_other _ _ _ _ (by decide), getVar_setVar_same]

theorem getVar_ollamaEnv_origins (osEnviron : EnvMap) :
    getVar (ollamaEnv osEnviron) "OLLAMA_ORIGINS" = some "*" := by
  unfold ollamaEnv
  rw [getVar_setVar_same]

theorem cycle_wellFormed (osEnviron : EnvMap) (s : LoopState) (e : CycleEnv)
    (h : wellFormedProc osEnviron s.proc) :
    wellFormedProc osEnviron (cycle osEnviron s e).1.proc ∧
    ∀ p ∈ (cycle osEnviron s e).2.spawned,
      wellFormedProc osEnviron p ∧ (cycle osEnviron s e).1.proc = p ∧
      p.gen = s.proc.gen + 1 := by
  cases hp : e.probe with
  | response status =>
    by_cases h200 : (status == 200) = true
    · cases ht : e.tunnelsResult with
      | ok tunnels => simp [cycle, hp, h200, ht, h]
      | error msg =>
        simp only [cycle, hp, h200, ht, if_true]
        unfold exceptHandler
        cases he : e.procExited
        · simp [h]
        · cases hs : e.spawnResult with
          | ok u => simp [hs, wellFormedProc]
          | error m => simp [hs, h]
    · simp [cycle, hp, h200, h]
  | raises msg =>
    simp only [cycle, hp]
    unfold exceptHandler
    cases he : e.procExited
    · simp [h]
    · cases hs : e.spawnResult with
      | ok u => simp [hs, wellFormedProc]
      | error m => simp [hs, h]

theorem run_wellFormed (osEnviron : EnvMap) (s : LoopState) (es : List CycleEnv)
    (h : wellFormedProc osEnviron s.proc) :
    wellFormedProc osEnviron (run osEnviron s es).1.proc ∧
    ∀ p ∈ allSpawned (run osEnviron s es).2, wellFormedProc osEnviron p := by
  induction es generalizing s with
  | nil => simpa [run, allSpawned] using h
  | cons e es ih =>
    by_cases hc : s.crashed = true
    · simpa [run, hc, allSpawned] using h
    · obtain ⟨h1, h2⟩ := cycle_wellFormed osEnviron s e h
      obtain ⟨g1, g2⟩ := ih ((cycle osEnviron s e).1) h1
      refine ⟨by simpa [run, hc] using g1, ?_⟩
      intro p hp
      have hrun2 : (run osEnviron s (e :: es)).2 =
          (cycle osEnviron s e).2 :: (run osEnviron ((cycle osEnviron s e).1) es).2 := by
        simp [run, hc]
      rw [hrun2] at hp
      have hsplit : allSpawned ((cycle osEnviron s e).2 ::
          (run osEnviron ((cycle osEnviron s e).1) es).2) =
          (cycle osEnviron s e).2.spawned ++
            allSpawned (run osEnviron ((cycle osEnviron s e).1) es).2 := by
        simp [allSpawned]
      rw [hsplit] at hp
      rcases List.mem_append.mp hp with hp2 | hp2
      · exact (h2 p hp2).1
      · exact g2 p hp2

theorem attemptReady_iff (a : StartupAttempt) :
    attemptReady a = true ↔ a = .response 200 true := by
  cases a with
  | raises => simp [attemptReady]
  | response st j =>
    cases j <;> simp [attemptReady]

/-! ### Claim theorems -/

/-- C1: in the keep-alive loop, a restart is issued only on confirmed
process death.  In any cycle whose probe fails while `poll()` still
reports the process alive, no `Popen` is called, nothing is spawned and
the state is unchanged; across any number of consecutive failing-probe
cycles with the process alive, zero restart calls occur. -/
theorem C1_no_restart_while_alive (osEnviron : EnvMap) (s : LoopState)
    (e : CycleEnv) (es : List CycleEnv)
    (h1 : failingProbeAlive e) (h2 : ∀ e2 ∈ es, failingProbeAlive e2) :
    (cycle osEnviron s e).2.popenCalls = 0 ∧
    (cycle osEnviron s e).2.spawned = [] ∧
    (cycle osEnviron s e).1 = s ∧
    totalPopenCalls (run osEnviron s es).2 = 0 ∧
    allSpawned (run osEnviron s es).2 = [] ∧
    (run osEnviron s es).1 = s := by
  obtain ⟨c1, c2, c3⟩ := cycle_alive_preserves osEnviron s e h1.2
  obtain ⟨r1, r2, r3⟩ :=
    run_alive_preserves osEnviron s es (fun e2 he2 => (h2 e2 he2).2)
  exact ⟨c2, c3, c1, r2, r3, r1⟩

/-- C1 witness: ten consecutive ticks whose probe hits an HTTP 500 while
the process is alive (the spec's scenario) issue zero restart calls. -/
theorem C1_no_restart_while_alive_witness :
    (cycle [] (initialState []) e500).2.popenCalls = 0 ∧
    totalPopenCalls (run [] (initialState []) (List.replicate 10 e500)).2 = 0 ∧
    allSpawned (run [] (initialState []) (List.replicate 10 e500)).2 = [] ∧
    (run [] (initialState []) (List.replicate 10 e500)).1 = initialState [] :=
  ⟨(C1_no_restart_while_alive [] (initialState []) e500 (List.replicate 10 e500)
      (by decide) (by decide)).1,
   (C1_no_restart_while_alive [] (initialState []) e500 (List.replicate 10 e500)
      (by decide) (by decide)).2.2.2.1,
   (C1_no_restart_while_alive [] (initialState []) e500 (List.replicate 10 e500)
      (by decide) (by decide)).2.2.2.2.1,
   (C1_no_restart_while_alive [] (initialState []) e500 (List.replicate 10 e500)
      (by decide) (by decide)).2.2.2.2.2⟩

/-- C2 counterexample: when the restart's `Popen` raises, the exception is
raised inside the `except` handler where nothing catches it, so the loop
crashes instead of proceeding to the next interval: from a run of two
cycles only the first executes. -/
theorem C2_counterexample_spawn_failure_is_fatal :
    (cycle [] (initialState []) eSpawnFail).1.crashed = true ∧
    (run [] (initialState []) [eSpawnFail, eOk]).2.length = 1 := by decide

/-- C2 amended: if the restart's `Popen` fails, the error and restart
notice are still reported, but the spawn exception escapes the `except`
handler (nothing encloses it), so the loop terminates: the cycle ends
crashed, with no sleeps, and no later cycle runs. -/
theorem C2_spawn_failure_crashes_loop (osEnviron : EnvMap) (s : LoopState)
    (e : CycleEnv) (es : List CycleEnv) (msg errMsg : String)
    (hp : e.probe = .raises msg) (hd : e.procExited = true)
    (hs : e.spawnResult = .error errMsg) :
    (cycle osEnviron s e).1.crashed = true ∧
    (cycle osEnviron s e).2.reports = [.errorMsg msg, .restartMsg] ∧
    (cycle osEnviron s e).2.spawned = [] ∧
    (cycle osEnviron s e).2.sleeps = [] ∧
    (s.crashed = false →
      (run osEnviron s (e :: es)).2 = [(cycle osEnviron s e).2] ∧
      (run osEnviron s (e :: es)).1 = (cycle osEnviron s e).1) := by
  have hcy : cycle osEnviron s e =
      ({ s with crashed := true },
       { reports := [.errorMsg msg, .restartMsg], popenCalls := 1,
         spawned := [], pipeReads := 0, sleeps := [] }) := by
    simp only [cycle, hp]
    unfold exceptHandler
    rw [hd, hs]
    simp
  refine ⟨by rw [hcy], by rw [hcy], by rw [hcy], by rw [hcy], ?_⟩
  intro hnc
  have hcrashed : (cycle osEnviron s e).1.crashed = true := by rw [hcy]
  cases es with
  | nil => simp [run, hnc]
  | cons e2 es2 => simp [run, hnc, hcrashed]

/-- C2 witness: the amended behaviour at a concrete failing spawn. -/
theorem C2_spawn_failure_crashes_loop_witness :
    (cycle [] (initialState []) eSpawnFail).1.crashed = true ∧
    (run [] (initialState []) [eSpawnFail, eOk]).2 =
      [(cycle [] (initialState []) eSpawnFail).2] :=
  ⟨(C2_spawn_failure_crashes_loop [] (initialState []) eSpawnFail [eOk]
      "Connection refused" "FileNotFoundError" rfl rfl rfl).1,
   ((C2_spawn_failure_crashes_loop [] (initialState []) eSpawnFail [eOk]
      "Connection refused" "FileNotFoundError" rfl rfl rfl).2.2.2.2 rfl).1⟩

/-- C3: a probe failure never propagates to the loop.  A raised transport
error with the process alive is converted into the UNHEALTHY
classification plus an error report carrying the diagnostic message, with
no state change, no spawn, and the normal sleep; a returned non-success
status is likewise reported (warning line) with no state change and no
spawn. -/
theorem C3_probe_error_contained (osEnviron : EnvMap) (s : LoopState)
    (e e2 : CycleEnv) (msg : String) (st : Nat)
    (hp : e.probe = .raises msg) (ha : e.procExited = false)
    (hq : e2.probe = .response st) (hn : st ≠ 200) :
    ((cycle osEnviron s e).1 = s ∧
      (cycle osEnviron s e).2.reports = [.errorMsg msg] ∧
      (cycle osEnviron s e).2.popenCalls = 0 ∧
      (cycle osEnviron s e).2.sleeps = [probeInterval] ∧
      classifyProbe e.probe = .UNHEALTHY) ∧
    ((cycle osEnviron s e2).1 = s ∧
      (cycle osEnviron s e2).2.reports = [.serverStatus st] ∧
      (cycle osEnviron s e2).2.popenCalls = 0 ∧
      (cycle osEnviron s e2).2.sleeps = [probeInterval] ∧
      classifyProbe e2.probe = .UNHEALTHY) := by
  constructor
  · rw [show cycle osEnviron s e = exceptHandler osEnviron s e msg by
      simp [cycle, hp], exceptHandler_alive osEnviron s e msg ha]
    simp [classifyProbe, hp]
  · have h200 : (st == 200) = false := by simpa using hn
    constructor
    · simp [cycle, hq, h200]
    refine ⟨by simp [cycle, hq, h200], by simp [cycle, hq, h200],
      by simp [cycle, hq, h200], ?_⟩
    simp [classifyProbe, hq, h200]

/-- C3 witness: a timed-out probe with the process alive, and a 204
status, both contained as reports. -/
theorem C3_probe_error_contained_witness :
    (cycle [] (initialState []) eTimeout).1 = initialState [] ∧
    (cycle [] (initialState []) eTimeout).2.reports = [.errorMsg "timed out"] ∧
    (cycle [] (initialState []) e204).2.reports = [.serverStatus 204] ∧
    (cycle [] (initialState []) e204).2.popenCalls = 0 :=
  ⟨(C3_probe_error_contained [] (initialState []) eTimeout e204 "timed out" 204
      rfl rfl rfl (by decide)).1.1,
   (C3_probe_error_contained [] (initialState []) eTimeout e204 "timed out" 204
      rfl rfl rfl (by decide)).1.2.1,
   (C3_probe_error_contained [] (initialState []) eTimeout e204 "timed out" 204
      rfl rfl rfl (by decide)).2.2.1,
   (C3_probe_error_contained [] (initialState []) eTimeout e204 "timed out" 204
      rfl rfl rfl (by decide)).2.2.2.1⟩

/-- C4 counterexample: 204 is a 2xx status received within the timeout,
yet the code (line 299: `resp.status == 200`) does not classify it as
healthy — the cycle prints the warning line, not the OK line. -/
theorem C4_counterexample_204_not_healthy :
    200 ≤ 204 ∧ 204 < 300 ∧
    classifyProbe (.response 204) = .UNHEALTHY ∧
    (cycle [] (initialState []) e204).2.reports = [.serverStatus 204] := by
  decide

/-- C4 amended: the probe classifies a response as HEALTHY exactly when
its status is 200; every other outcome — a response with any other status
(including other 2xx statuses), a network error, or a timeout — is
UNHEALTHY, and a non-200 status yields the warning report with no
restart. -/
theorem C4_only_exact_200_is_healthy (r : UrlopenResult) (osEnviron : EnvMap)
    (s : LoopState) (e : CycleEnv) (st : Nat)
    (hp : e.probe = .response st) (hne : st ≠ 200) :
    (classifyProbe r = .HEALTHY ↔ r = .response 200) ∧
    classifyProbe e.probe = .UNHEALTHY ∧
    (cycle osEnviron s e).2.reports = [.serverStatus st] ∧
    (cycle osEnviron s e).2.popenCalls = 0 := by
  have h200 : (st == 200) = false := by simpa using hne
  refine ⟨?_, by simp [classifyProbe, hp, h200], by simp [cycle, hp, h200],
    by simp [cycle, hp, h200]⟩
  cases r with
  | response st2 =>
    by_cases h2 : (st2 == 200) = true
    · have : st2 = 200 := by simpa using h2
      simp [classifyProbe, h2, this]
    · have : ¬ st2 = 200 := by simpa using h2
      simp [classifyProbe, h2, this]
  | raises m => simp [classifyProbe]

/-- C4 witness: the amended classification at a timeout and at status
204. -/
theorem C4_only_exact_200_is_healthy_witness :
    (classifyProbe (.raises "timed out") = .HEALTHY ↔
      UrlopenResult.raises "timed out" = .response 200) ∧
    classifyProbe e204.probe = .UNHEALTHY ∧
    (cycle [] (initialState []) e204).2.reports = [.serverStatus 204] ∧
    (cycle [] (initialState []) e204).2.popenCalls = 0 :=
  C4_only_exact_200_is_healthy (.raises "timed out") [] (initialState [])
    e204 204 rfl (by decide)

/-- C5 counterexample: a restart cycle does not wait only the settle
interval (10) before the next probe — it sleeps 10 and then also the
fixed cadence 300, 310 in total. -/
theorem C5_counterexample_restart_waits_310 :
    (cycle [] (initialState []) eDead).2.spawned ≠ [] ∧
    (cycle [] (initialState []) eDead).2.sleeps = [10, 300] ∧
    ((cycle [] (initialState []) eDead).2.sleeps).sum = 310 ∧
    ¬ ((cycle [] (initialState []) eDead).2.sleeps).sum = settleInterval := by
  decide

/-- C5 amended: after a cycle that observes a dead process and
successfully restarts, the loop sleeps the settle interval (10) and then
additionally the fixed cadence (300) before the next probe — 310 in
total; every cycle that makes no `Popen` call sleeps exactly the cadence
300; a cycle whose restart spawn fails crashes and sleeps not at all.
Both delays are the literal configuration constants 10 and 300. -/
theorem C5_sleep_schedule (osEnviron : EnvMap) (s : LoopState) (e : CycleEnv) :
    settleInterval = 10 ∧ probeInterval = 300 ∧
    ((cycle osEnviron s e).2.spawned ≠ [] →
      (cycle osEnviron s e).2.sleeps = [settleInterval, probeInterval] ∧
      ((cycle osEnviron s e).2.sleeps).sum = 310) ∧
    ((cycle osEnviron s e).2.popenCalls = 0 →
      (cycle osEnviron s e).2.sleeps = [probeInterval]) ∧
    ((cycle osEnviron s e).2.popenCalls = 1 →
      (cycle osEnviron s e).2.spawned = [] →
      (cycle osEnviron s e).2.sleeps = []) := by
  refine ⟨rfl, rfl, ?_⟩
  cases hp : e.probe with
  | response status =>
    by_cases h200 : (status == 200) = true
    · cases ht : e.tunnelsResult with
      | ok tunnels => simp [cycle, hp, h200, ht]
      | error msg =>
        simp only [cycle, hp, h200, ht, if_true]
        unfold exceptHandler
        cases he : e.procExited
        · simp
        · cases hs : e.spawnResult with
          | ok u => simp [hs, settleInterval, probeInterval]
          | error m => simp [hs]
    · simp [cycle, hp, h200]
  | raises msg =>
    simp only [cycle, hp]
    unfold exceptHandler
    cases he : e.procExited
    · simp
    · cases hs : e.spawnResult with
      | ok u => simp [hs, settleInterval, probeInterval]
      | error m => simp [hs]

/-- C5 witness: the amended schedule at a restart cycle and at a healthy
cycle. -/
theorem C5_sleep_schedule_witness :
    (cycle [] (initialState []) eDead).2.sleeps = [settleInterval, probeInterval] ∧
    (cycle [] (initialState []) eOk).2.sleeps = [probeInterval] :=
  ⟨((C5_sleep_schedule [] (initialState []) eDead).2.2.1 (by decide)).1,
   (C5_sleep_schedule [] (initialState []) eOk).2.2.2.1 (by decide)⟩

theorem cycle_spawned_supersedes (osEnviron : EnvMap) (s : LoopState)
    (e : CycleEnv) :
    ∀ p ∈ (cycle osEnviron s e).2.spawned,
      (cycle osEnviron s e).1.proc = p ∧ p.gen = s.proc.gen + 1 := by
  cases hp : e.probe with
  | response status =>
    by_cases h200 : (status == 200) = true
    · cases ht : e.tunnelsResult with
      | ok tunnels => simp [cycle, hp, h200, ht]
      | error msg =>
        simp only [cycle, hp, h200, ht, if_true]
        unfold exceptHandler
        cases he : e.procExited
        · simp
        · cases hs : e.spawnResult with
          | ok u => simp [hs]
          | error m => simp [hs]
    · simp [cycle, hp, h200]
  | raises msg =>
    simp only [cycle, hp]
    unfold exceptHandler
    cases he : e.procExited
    · simp
    · cases hs : e.spawnResult with
      | ok u => simp [hs]
      | error m => simp [hs]

/-- C6: restart is idempotent under repeated dead-process observations.
A cycle that confirms death (probe exception, `poll()` non-`None`) makes
exactly one `Popen` call before the next probe; no cycle ever makes more
than one; and over any stretch of polling ticks in which the (replacement)
process stays alive, zero `Popen` calls occur. -/
theorem C6_exactly_one_spawn_per_death (osEnviron : EnvMap) (s : LoopState)
    (e e3 : CycleEnv) (es : List CycleEnv) (msg : String)
    (hp : e.probe = .raises msg) (hd : e.procExited = true)
    (ha : ∀ e2 ∈ es, e2.procExited = false) :
    (cycle osEnviron s e).2.popenCalls = 1 ∧
    (cycle osEnviron s e3).2.popenCalls ≤ 1 ∧
    totalPopenCalls (run osEnviron s es).2 = 0 := by
  refine ⟨?_, cycle_popenCalls_le_one osEnviron s e3,
    (run_alive_preserves osEnviron s es ha).2.1⟩
  simp only [cycle, hp]
  unfold exceptHandler
  rw [hd]
  cases hs : e.spawnResult <;> simp [hs]

/-- C6 witness: the death tick spawns once; five subsequent alive-but-
unhealthy ticks spawn nothing more. -/
theorem C6_exactly_one_spawn_per_death_witness :
    (cycle [] (initialState []) eDead).2.popenCalls = 1 ∧
    (cycle [] (initialState []) eOk).2.popenCalls ≤ 1 ∧
    totalPopenCalls (run [] (initialState []) (List.replicate 5 e500)).2 = 0 :=
  C6_exactly_one_spawn_per_death [] (initialState []) eDead eOk
    (List.replicate 5 e500) "Connection refused" rfl rfl (by decide)

/-- C7: at every point there is exactly one active server handle — the
single `ollama_process` variable, whose replacement on restart supersedes
(is not equal to) the prior handle — and every handle, initial or
replacement, is spawned with the same configuration: argument vector
`["ollama", "serve"]` and the same `ollama_env` environment map, carrying
`OLLAMA_HOST = 0.0.0.0:11434` and `OLLAMA_ORIGINS = *`. -/
theorem C7_single_handle_same_config (osEnviron : EnvMap) (es : List CycleEnv)
    (s : LoopState) (e : CycleEnv) :
    (activeHandles (run osEnviron (initialState osEnviron) es).1).length = 1 ∧
    wellFormedProc osEnviron (run osEnviron (initialState osEnviron) es).1.proc ∧
    getVar ((run osEnviron (initialState osEnviron) es).1.proc.env)
      "OLLAMA_HOST" = some "0.0.0.0:11434" ∧
    getVar ((run osEnviron (initialState osEnviron) es).1.proc.env)
      "OLLAMA_ORIGINS" = some "*" ∧
    (∀ p ∈ allSpawned (run osEnviron (initialState osEnviron) es).2,
      p.env = (initialProc osEnviron).env ∧ p.args = (initialProc osEnviron).args) ∧
    (∀ p ∈ (cycle osEnviron s e).2.spawned,
      (cycle osEnviron s e).1.proc = p ∧ p ≠ s.proc) := by
  have hwf0 : wellFormedProc osEnviron (initialState osEnviron).proc :=
    ⟨rfl, rfl, rfl, rfl⟩
  obtain ⟨hwf, hsp⟩ := run_wellFormed osEnviron (initialState osEnviron) es hwf0
  refine ⟨rfl, hwf, ?_, ?_, ?_, ?_⟩
  · rw [hwf.2.1]
    exact getVar_ollamaEnv_host osEnviron
  · rw [hwf.2.1]
    exact getVar_ollamaEnv_origins osEnviron
  · intro p hp
    obtain ⟨ha, he, _, _⟩ := hsp p hp
    exact ⟨by rw [he]; rfl, by rw [ha]; rfl⟩
  · intro p hp
    obtain ⟨heq, hgen⟩ := cycle_spawned_supersedes osEnviron s e p hp
    refine ⟨heq, fun hcontra => ?_⟩
    rw [hcontra] at hgen
    omega

/-- C7 witness: after one dead-process cycle the sole handle is the
generation-1 replacement, distinct from the original and spawned with the
same environment. -/
theorem C7_single_handle_same_config_witness :
    (activeHandles (run [] (initialState []) [eDead]).1).length = 1 ∧
    getVar ((run [] (initialState []) [eDead]).1.proc.env) "OLLAMA_HOST" =
      some "0.0.0.0:11434" ∧
    (cycle [] (initialState []) eDead).1.proc = spawnedDemo ∧
    spawnedDemo ≠ (initialState []).proc :=
  ⟨(C7_single_handle_same_config [] [eDead] (initialState []) eDead).1,
   (C7_single_handle_same_config [] [eDead] (initialState []) eDead).2.2.1,
   ((C7_single_handle_same_config [] [eDead] (initialState []) eDead).2.2.2.2.2
      spawnedDemo (by decide)).1,
   ((C7_single_handle_same_config [] [eDead] (initialState []) eDead).2.2.2.2.2
      spawnedDemo (by decide)).2⟩

/-- C8: the supervised process's stdout and stderr are attached to pipes
(`stdout=PIPE, stderr=PIPE` on both `Popen` calls), yet no cycle of the
keep-alive loop — and hence no run of it — ever reads from those pipes:
nothing drains them, so a process writing more than the pipe capacity
blocks.  This refutes the claimed independent draining. -/
theorem C8_loop_never_drains (osEnviron : EnvMap) (es : List CycleEnv)
    (s : LoopState) (e : CycleEnv) :
    (initialProc osEnviron).stdoutPipe = true ∧
    (initialProc osEnviron).stderrPipe = true ∧
    (cycle osEnviron s e).2.pipeReads = 0 ∧
    totalPipeReads (run osEnviron (initialState osEnviron) es).2 = 0 :=
  ⟨rfl, rfl, cycle_pipeReads_zero osEnviron s e,
    run_pipeReads_zero osEnviron (initialState osEnviron) es⟩

/-- C9: an exception raised after a successful probe — `ngrok.get_tunnels()`
failing in the 200 branch — lands in the same `except` handler as probe
failures: the cycle equals the handler's, the diagnostic is reported as an
ERROR line, and the dead-process check runs even though the local server
answered 200 (a `Popen` call occurs exactly when `poll()` confirms death). -/
theorem C9_tunnel_error_hits_probe_handler (osEnviron : EnvMap)
    (s : LoopState) (e : CycleEnv) (msg : String)
    (hp : e.probe = .response 200) (ht : e.tunnelsResult = .error msg) :
    cycle osEnviron s e = exceptHandler osEnviron s e msg ∧
    Report.errorMsg msg ∈ (cycle osEnviron s e).2.reports ∧
    classifyProbe e.probe = .HEALTHY ∧
    (e.procExited = true → (cycle osEnviron s e).2.popenCalls = 1) ∧
    (e.procExited = false → (cycle osEnviron s e).2.popenCalls = 0) := by
  have hce : cycle osEnviron s e = exceptHandler osEnviron s e msg := by
    simp [cycle, hp, ht]
  refine ⟨hce, ?_, by simp [classifyProbe, hp], ?_, ?_⟩
  · rw [hce]
    unfold exceptHandler
    cases he : e.procExited
    · simp
    · cases hs : e.spawnResult <;> simp [hs]
  · intro hd
    rw [hce]
    unfold exceptHandler
    rw [hd]
    cases hs : e.spawnResult <;> simp [hs]
  · intro hd
    rw [hce, exceptHandler_alive osEnviron s e msg hd]

/-- C9 witness: the behaviour at a concrete tunnel failure over a dead
process. -/
theorem C9_tunnel_error_hits_probe_handler_witness :
    cycle [] (initialState []) eTunnelFail =
      exceptHandler [] (initialState []) eTunnelFail "ngrok session closed" ∧
    (cycle [] (initialState []) eTunnelFail).2.popenCalls = 1 :=
  ⟨(C9_tunnel_error_hits_probe_handler [] (initialState []) eTunnelFail
      "ngrok session closed" rfl rfl).1,
   (C9_tunnel_error_hits_probe_handler [] (initialState []) eTunnelFail
      "ngrok session closed" rfl rfl).2.2.2.1 rfl⟩

/-- C10: the keep-alive loop is entered only if some of the (at most 45,
one-second-spaced, 2-second-timeout) startup attempts gets an HTTP 200
(with parsable JSON body); if none does, the script takes the failure
path — best-effort `terminate()` and stderr report (both performed when
neither call raises) followed by `SystemExit` — and never reaches the
supervisor. -/
theorem C10_startup_gate (attempts : List StartupAttempt)
    (terminateRaises communicateRaises laterStepsOk : Bool) :
    startupAttemptLimit = 45 ∧ startupProbeTimeout = 2 ∧
    startupRetrySleep = 1 ∧
    (entersKeepAlive attempts terminateRaises communicateRaises laterStepsOk
        = true →
      serverReadyAfter attempts = true ∧
      ∃ a ∈ attempts.take startupAttemptLimit, a = .response 200 true) ∧
    (serverReadyAfter attempts = false →
      startupStage attempts terminateRaises communicateRaises =
        .failExit (!terminateRaises) (!terminateRaises && !communicateRaises) ∧
      raisesSystemExit (startupStage attempts terminateRaises communicateRaises)
        = true ∧
      entersKeepAlive attempts terminateRaises communicateRaises laterStepsOk
        = false) := by
  refine ⟨rfl, rfl, rfl, ?_, ?_⟩
  · intro hent
    by_cases hr : serverReadyAfter attempts = true
    · refine ⟨hr, ?_⟩
      unfold serverReadyAfter at hr
      obtain ⟨a, hmem, hready⟩ := List.any_eq_true.mp hr
      exact ⟨a, hmem, (attemptReady_iff a).mp hready⟩
    · exfalso
      have hst : startupStage attempts terminateRaises communicateRaises =
          .failExit (!terminateRaises) (!terminateRaises && !communicateRaises) := by
        unfold startupStage
        rw [if_neg hr]
      unfold entersKeepAlive at hent
      rw [hst] at hent
      simp at hent
  · intro hr
    have hr2 : ¬ (serverReadyAfter attempts = true) := by simp [hr]
    have hst : startupStage attempts terminateRaises communicateRaises =
        .failExit (!terminateRaises) (!terminateRaises && !communicateRaises) := by
      unfold startupStage
      rw [if_neg hr2]
    refine ⟨hst, by rw [hst]; rfl, ?_⟩
    unfold entersKeepAlive
    rw [hst]
    simp

/-- C10 witness: 45 refused attempts produce the SystemExit failure path
with terminate and stderr report and no supervisor; a single 200 attempt
satisfies readiness. -/
theorem C10_startup_gate_witness :
    startupStage (List.replicate 45 .raises) false false = .failExit true true ∧
    raisesSystemExit (startupStage (List.replicate 45 .raises) false false)
      = true ∧
    entersKeepAlive (List.replicate 45 .raises) false false true = false ∧
    serverReadyAfter [.response 200 true] = true :=
  ⟨((C10_startup_gate (List.replicate 45 .raises) false false true).2.2.2.2
      (by decide)).1,
   ((C10_startup_gate (List.replicate 45 .raises) false false true).2.2.2.2
      (by decide)).2.1,
   ((C10_startup_gate (List.replicate 45 .raises) false false true).2.2.2.2
      (by decide)).2.2,
   ((C10_startup_gate [.response 200 true] false false true).2.2.2.1
      (by decide)).1⟩

end CircleForLife
